import Mathlib

/-!
Verification of the FastViewer front end.

This file gives a shallow embedding of the stateful hooks of the repository
and proves the specified properties about them.

Embedded code:
* the progressive display-level state machine of `useDisplayLevel`
  (hooks file, `handleMouseMove`, `handleMouseDown`, the scene-change effect
  and the three timers `mouseIdleTimer`, `level2Timer`, `level3Timer`);
* the auto-play scheduler of `useAutoPlay` (interval effect, `pause`);
* the notification hook `useNotification`;
* the content hooks of `useImageContent`
  (`loadInitialScene`, `handleNextPage`, `handlePrevPage`,
  `handleNextScene`, `handlePrevScene`, the `isNavigating` guard).

Timestamps are wall-clock milliseconds modelled as `Nat` (display level,
notification) or `ℚ` (auto-play, whose speed multiplier is fractional).
Each `setTimeout` handle is modelled as the absolute deadline of the pending
callback; `clearTimeout` on a slot is modelled by overwriting or dropping the
deadline, which is faithful because every `setTimeout` in the source is stored
in a dedicated ref that is cleared before being re-assigned.
-/

namespace FastViewer

/-- Snapshot recorded by `handleMouseDown` in the `lastMouseDownLevel` ref:
the display level right before the handler changes anything, and the
`Date.now()` timestamp of the mouse-down. -/
structure Snapshot where
  level : Nat
  timestamp : Nat
  deriving DecidableEq

/-- State of the `useDisplayLevel` hook: the `displayLevel` state (mirrored by
`displayLevelRef`), the `previousSceneIndex` ref, the `lastMouseDownLevel`
ref, and the three timer refs, each modelled as the absolute deadline of the
pending callback (or `none` when unset, cleared or already fired). -/
structure DLState where
  displayLevel : Nat
  previousSceneIndex : Option Int
  lastMouseDownLevel : Snapshot
  mouseIdleTimer : Option Nat
  level2Timer : Option Nat
  level3Timer : Option Nat
  deriving DecidableEq

/-- Initial state of `useDisplayLevel` at mount: level 0, no previous scene
index, `lastMouseDownLevel` initialised to `(level 0, timestamp 0)` as in the
source, no timers pending. -/
def initState : DLState :=
  { displayLevel := 0
    previousSceneIndex := none
    lastMouseDownLevel := { level := 0, timestamp := 0 }
    mouseIdleTimer := none
    level2Timer := none
    level3Timer := none }

/-- The `handleMouseMove` listener: always clear the idle timer; when at
level 0, clear the progression timers, show level 1 immediately and schedule
level 2 after 200 ms and level 3 after 500 ms; finally (re)schedule the idle
timer for 3000 ms.  `t` is `Date.now()` at the event. -/
def handleMouseMove (t : Nat) (s : DLState) : DLState :=
  if s.displayLevel = 0 then
    { s with displayLevel := 1
             level2Timer := some (t + 200)
             level3Timer := some (t + 500)
             mouseIdleTimer := some (t + 3000) }
  else
    { s with mouseIdleTimer := some (t + 3000) }

/-- The `handleMouseDown` listener: record the pre-event level and timestamp
in `lastMouseDownLevel`, clear the idle timer; when at level 0, clear the
progression timers and jump to level 3; finally (re)schedule the idle timer
for 3000 ms. -/
def handleMouseDown (t : Nat) (s : DLState) : DLState :=
  if s.displayLevel = 0 then
    { s with lastMouseDownLevel := { level := s.displayLevel, timestamp := t }
             displayLevel := 3
             level2Timer := none
             level3Timer := none
             mouseIdleTimer := some (t + 3000) }
  else
    { s with lastMouseDownLevel := { level := s.displayLevel, timestamp := t }
             mouseIdleTimer := some (t + 3000) }

/-- The scene-change effect of `useDisplayLevel` (run whenever a non-null
`sceneIndex` is delivered): when a previous index is tracked and differs from
the new one, pick the reference level from the mouse-down snapshot if the
mouse-down is less than 500 ms old, otherwise from the current level; when
that reference level is 0, show level 1 and (re)schedule the idle timer for
3000 ms.  The `previousSceneIndex` ref is always updated. -/
def handleSceneChange (t : Nat) (newIndex : Int) (s : DLState) : DLState :=
  match s.previousSceneIndex with
  | none => { s with previousSceneIndex := some newIndex }
  | some prev =>
    if prev = newIndex then
      { s with previousSceneIndex := some newIndex }
    else
      let levelToCheck :=
        if t - s.lastMouseDownLevel.timestamp < 500 then s.lastMouseDownLevel.level
        else s.displayLevel
      if levelToCheck = 0 then
        { s with displayLevel := 1
                 mouseIdleTimer := some (t + 3000)
                 previousSceneIndex := some newIndex }
      else
        { s with previousSceneIndex := some newIndex }

/-- Firing of the idle timer callback: reset the level to 0. -/
def fireIdle (s : DLState) : DLState :=
  { s with displayLevel := 0, mouseIdleTimer := none }

/-- Firing of the `level2Timer` callback: set the level to 2. -/
def fireLevel2 (s : DLState) : DLState :=
  { s with displayLevel := 2, level2Timer := none }

/-- Firing of the `level3Timer` callback: set the level to 3. -/
def fireLevel3 (s : DLState) : DLState :=
  { s with displayLevel := 3, level3Timer := none }

/-- Events processed by the display-level state machine: the two mouse
listeners, the scene-change effect, and the three timer callbacks. -/
inductive DLEvent where
  | mouseMove
  | mouseDown
  | sceneChange (newIndex : Int)
  | idleFired
  | level2Fired
  | level3Fired
  deriving DecidableEq

/-- One step of the display-level machine: dispatch the event handler. -/
def stepDL (t : Nat) (e : DLEvent) (s : DLState) : DLState :=
  match e with
  | .mouseMove => handleMouseMove t s
  | .mouseDown => handleMouseDown t s
  | .sceneChange n => handleSceneChange t n s
  | .idleFired => fireIdle s
  | .level2Fired => fireLevel2 s
  | .level3Fired => fireLevel3 s

/-- A pending deadline (if any) is no earlier than `t`. -/
def optLE (t : Nat) : Option Nat → Prop
  | none => True
  | some d => t ≤ d

instance (t : Nat) : (o : Option Nat) → Decidable (optLE t o)
  | none => isTrue trivial
  | some d => inferInstanceAs (Decidable (t ≤ d))

/-- No pending timer of the display-level machine is overdue at time `t`:
the event loop runs due timer callbacks before later events. -/
def noEarlierDeadline (t : Nat) (s : DLState) : Prop :=
  optLE t s.mouseIdleTimer ∧ optLE t s.level2Timer ∧ optLE t s.level3Timer

instance (t : Nat) (s : DLState) : Decidable (noEarlierDeadline t s) := by
  unfold noEarlierDeadline; infer_instance

/-- An event may be processed at time `t`: no pending deadline lies strictly
in the past, and a timer callback fires exactly at its recorded deadline. -/
def enabledDL (t : Nat) (e : DLEvent) (s : DLState) : Prop :=
  noEarlierDeadline t s ∧
  match e with
  | .idleFired => s.mouseIdleTimer = some t
  | .level2Fired => s.level2Timer = some t
  | .level3Fired => s.level3Timer = some t
  | _ => True

instance (t : Nat) (e : DLEvent) (s : DLState) : Decidable (enabledDL t e s) := by
  unfold enabledDL; cases e <;> exact inferInstanceAs (Decidable (_ ∧ _))

/-- Reachability of the display-level machine: `ReachDL t0 s τ` holds when
state `s` arises at time `τ` from mounting at wall-clock time `t0` and
processing some sequence of enabled events at nondecreasing times. -/
inductive ReachDL (t0 : Nat) : DLState → Nat → Prop where
  | init : ReachDL t0 initState t0
  | next {s : DLState} {τ t : Nat} {e : DLEvent} :
      ReachDL t0 s τ → τ ≤ t → enabledDL t e s → ReachDL t0 (stepDL t e s) t

/-- The mouse-down snapshot records level 0 and is less than 500 ms old at
time `t` (so a scene change at `t` would use it as reference level 0). -/
def fresh0 (s : DLState) (t : Nat) : Prop :=
  s.lastMouseDownLevel.level = 0 ∧ t < s.lastMouseDownLevel.timestamp + 500

instance (s : DLState) (t : Nat) : Decidable (fresh0 s t) :=
  inferInstanceAs (Decidable (_ ∧ _))

/-- Inductive invariant of the display-level machine at time `τ`, strong
enough to characterise every level transition: the snapshot is not from the
future, the level stays in 0..3, a fresh level-0 snapshot implies the level
already jumped (so it is nonzero) and the idle deadline is at least 3000 ms
after the mouse-down, and the pending progression timers constrain the level
and each other. -/
def InvDL (s : DLState) (τ : Nat) : Prop :=
  s.lastMouseDownLevel.timestamp ≤ τ ∧
  s.displayLevel ≤ 3 ∧
  (fresh0 s τ → s.displayLevel ≠ 0) ∧
  (∀ di, s.mouseIdleTimer = some di → fresh0 s τ →
    s.lastMouseDownLevel.timestamp + 3000 ≤ di) ∧
  (∀ d2, s.level2Timer = some d2 →
    s.displayLevel = 1 ∧ s.level3Timer = some (d2 + 300) ∧ ¬ fresh0 s τ ∧
    d2 ≤ τ + 200 ∧ (∀ di, s.mouseIdleTimer = some di → d2 + 2800 ≤ di)) ∧
  (∀ d3, s.level3Timer = some d3 →
    ¬ fresh0 s τ ∧ d3 ≤ τ + 500 ∧ 300 ≤ d3 ∧
    (∀ di, s.mouseIdleTimer = some di → d3 + 2500 ≤ di) ∧
    ((s.displayLevel = 1 ∧ s.level2Timer = some (d3 - 300)) ∨
     (s.displayLevel = 2 ∧ s.level2Timer = none)))

/-- The property asserted by the monotonicity claim, as stated: in every
reachable execution, the only step that lowers the display level is the idle
timeout. -/
def C4ClaimedProp : Prop :=
  ∀ t0 s τ t e, 500 ≤ t0 → ReachDL t0 s τ → τ ≤ t → enabledDL t e s →
    (stepDL t e s).displayLevel < s.displayLevel → e = DLEvent.idleFired

/-- Concrete display-level state used in witnesses: level 0, previous scene
index 0, stale snapshot. -/
def c1S : DLState :=
  { displayLevel := 0
    previousSceneIndex := some 0
    lastMouseDownLevel := { level := 2, timestamp := 300 }
    mouseIdleTimer := none
    level2Timer := none
    level3Timer := none }

/-- Concrete display-level state at level 3 with a pending idle timer. -/
def level3S : DLState :=
  { displayLevel := 3
    previousSceneIndex := some 0
    lastMouseDownLevel := { level := 2, timestamp := 300 }
    mouseIdleTimer := some 5500
    level2Timer := none
    level3Timer := none }

/-- First state of the counterexample trace: the scene-change effect runs
once at mount time 1000 and records scene index 0. -/
def c4s1 : DLState := stepDL 1000 (DLEvent.sceneChange 0) initState

/-- Second state of the counterexample trace: a mouse-down at time 1100 at
level 0 jumps the level to 3 and records the snapshot (level 0, 1100). -/
def c4s2 : DLState := stepDL 1100 DLEvent.mouseDown c4s1

/-- Direction of one auto-play navigation step. -/
inductive NavDirection where
  | forward
  | backward
  deriving DecidableEq

/-- State of the `useAutoPlay` hook: the `isPlaying`, `speed` and `reverse`
states and the `pausedUntil` ref (a wall-clock timestamp, 0 initially). -/
structure AutoPlayState where
  isPlaying : Bool
  speed : ℚ
  reverse : Bool
  pausedUntil : ℚ
  deriving DecidableEq

/-- Body of the `setInterval` callback in `useAutoPlay`: when `Date.now()` is
before `pausedUntil` the tick is skipped (no callback), otherwise `onPrev`
is invoked when `reverse` is set and `onNext` otherwise. -/
def tickAction (now : ℚ) (s : AutoPlayState) : Option NavDirection :=
  if now < s.pausedUntil then none
  else if s.reverse then some NavDirection.backward
  else some NavDirection.forward

/-- The `pause(duration)` operation: set `pausedUntil` to now + duration.
The underlying interval timer is not touched. -/
def applyPause (now duration : ℚ) (s : AutoPlayState) : AutoPlayState :=
  { s with pausedUntil := now + duration }

/-- The base tick interval of `useAutoPlay` (2.4 seconds). -/
def baseInterval : ℚ := 2400

/-- A running `setInterval` handle: registration time and period. -/
structure IntervalTimer where
  start : ℚ
  delay : ℚ
  deriving DecidableEq

/-- Re-run of the auto-play interval effect at time `now` (it re-runs whenever
`isPlaying`, `speed`, `reverse` or a callback changes): the cleanup clears any
previous interval — the old handle is discarded, which is why `_old` is
ignored — and a fresh interval at period `baseInterval / speed` starts only
when `isPlaying` is true. -/
def rerunAutoPlayEffect (now : ℚ) (_old : Option IntervalTimer)
    (isPlaying : Bool) (speed : ℚ) : Option IntervalTimer :=
  if isPlaying then some { start := now, delay := baseInterval / speed } else none

/-- Absolute time of the k-th tick of an interval timer (`setInterval`
semantics: first callback one period after registration). -/
def tickTime (T : IntervalTimer) (k : Nat) : ℚ := T.start + (k + 1) * T.delay

/-- State of the `useNotification` hook.  `pendingTimers` is the multiset of
deadlines of expiry timeouts that have been scheduled and neither cleared nor
fired; `notificationTimer` is the ref holding the handle of the most recently
scheduled timeout (possibly already fired and therefore stale). -/
structure NotificationState where
  notification : Option String
  pendingTimers : List Nat
  notificationTimer : Option Nat
  deriving DecidableEq

/-- Initial state of `useNotification`. -/
def initNotification : NotificationState :=
  { notification := none, pendingTimers := [], notificationTimer := none }

/-- The `showNotification(message, duration)` operation: clear any existing
notification timer (remove the tracked deadline from the pending multiset),
display the message, and schedule auto-dismissal after `duration`. -/
def showNotification (now : Nat) (message : String) (duration : Nat)
    (s : NotificationState) : NotificationState :=
  let cleared :=
    match s.notificationTimer with
    | some dl => s.pendingTimers.erase dl
    | none => s.pendingTimers
  { notification := some message
    pendingTimers := cleared ++ [now + duration]
    notificationTimer := some (now + duration) }

/-- Firing of a scheduled expiry timeout with deadline `dl`: the message is
dismissed and the timeout is spent.  The `notificationTimer` ref keeps the
stale handle, as in the source. -/
def fireNotificationExpiry (dl : Nat) (s : NotificationState) : NotificationState :=
  { s with notification := none, pendingTimers := s.pendingTimers.erase dl }

/-- Well-formedness of the notification state: any pending expiry timeout is
the single one tracked by the `notificationTimer` ref. -/
def NotifWF (s : NotificationState) : Prop :=
  s.pendingTimers = [] ∨
  ∃ dl, s.notificationTimer = some dl ∧ s.pendingTimers = [dl]

/-- Unmount behaviour of `useNotification`: the hook registers no effect
cleanup, so tearing the component down leaves its state — in particular any
pending expiry timeout — untouched. -/
def notificationUnmountCleanup (s : NotificationState) : NotificationState := s

/-- The `mousemove` and `mousedown` window listeners registered by the mount
effect of `useDisplayLevel`. -/
structure DLListeners where
  mousemove : Bool
  mousedown : Bool
  deriving DecidableEq

/-- Cleanup returned by the mount effect of `useDisplayLevel`: remove both
window listeners and clear the idle and progression timers. -/
def displayLevelCleanup (s : DLState) (_l : DLListeners) : DLState × DLListeners :=
  ({ s with mouseIdleTimer := none, level2Timer := none, level3Timer := none },
   { mousemove := false, mousedown := false })

/-- Cleanup returned by the interval effect of `useAutoPlay`: clear the
interval timer. -/
def autoPlayCleanup (_timer : Option IntervalTimer) : Option IntervalTimer := none

/-- Scene metadata returned by the backend (`SceneInfo` in the source). -/
structure SceneInfo where
  scene_name : String
  scene_index : Int
  total_pages : Int
  current_page : Int
  deriving DecidableEq

/-- Image payload returned by the backend (`ImageData` in the source). -/
structure ImageData where
  main_image : Option String
  thumbnail_image : Option String
  page_index : Int
  scene_index : Int
  image_path : String
  is_preview : Bool
  deriving DecidableEq

/-- UI state owned by the `useImageContent` hook, including the
`isNavigating` ref. -/
structure ContentState where
  imageData : Option ImageData
  sceneInfo : Option SceneInfo
  loading : Bool
  error : Option String
  sceneLoopEnabled : Bool
  isNavigating : Bool
  deriving DecidableEq

/-- The `loadInitialScene` function, parametrised by the outcomes of its three
awaited backend calls (`loadSceneCollection`, `getSceneInfo`, `getImage`).
Any rejection is caught and turned into the visible error message; the
`finally` block always ends the loading state. -/
def loadInitialScene (rLoad : Except String Unit) (rInfo : Except String SceneInfo)
    (rImage : Except String ImageData) (s : ContentState) : ContentState :=
  let s1 := { s with loading := true, error := none }
  match rLoad with
  | .error e => { s1 with error := some ("Failed to load scene: " ++ e), loading := false }
  | .ok _ =>
    match rInfo with
    | .error e => { s1 with error := some ("Failed to load scene: " ++ e), loading := false }
    | .ok info =>
      let s2 := { s1 with sceneInfo := some info }
      match rImage with
      | .error e => { s2 with error := some ("Failed to load scene: " ++ e), loading := false }
      | .ok data => { s2 with imageData := some data, loading := false }

/-- The `handleNextPage` function, parametrised by the outcomes of its two
awaited backend calls (`nextPage`, `getSceneInfo`).  When the `isNavigating`
guard is set the handler returns at once; rejections are caught, only logged,
and the `finally` block clears the guard.  The boolean output records whether
the backend was invoked at all. -/
def handleNextPage (rData : Except String ImageData) (rInfo : Except String SceneInfo)
    (s : ContentState) : ContentState × Bool :=
  if s.isNavigating then (s, false)
  else
    match rData with
    | .error _ => ({ s with isNavigating := false }, true)
    | .ok data =>
      let s1 := { s with imageData := some data }
      match rInfo with
      | .error _ => ({ s1 with isNavigating := false }, true)
      | .ok info => ({ s1 with sceneInfo := some info, isNavigating := false }, true)

/-- The `handlePrevPage` function; identical in structure to `handleNextPage`
with the `prevPage` backend call. -/
def handlePrevPage (rData : Except String ImageData) (rInfo : Except String SceneInfo)
    (s : ContentState) : ContentState × Bool :=
  if s.isNavigating then (s, false)
  else
    match rData with
    | .error _ => ({ s with isNavigating := false }, true)
    | .ok data =>
      let s1 := { s with imageData := some data }
      match rInfo with
      | .error _ => ({ s1 with isNavigating := false }, true)
      | .ok info => ({ s1 with sceneInfo := some info, isNavigating := false }, true)

/-- The `handleNextScene` function, parametrised by the outcomes of its two
awaited backend calls (`nextScene`, `getImage`).  Rejections are caught and
only logged; no guard is used. -/
def handleNextScene (rInfo : Except String SceneInfo) (rImage : Except String ImageData)
    (s : ContentState) : ContentState :=
  match rInfo with
  | .error _ => s
  | .ok info =>
    let s1 := { s with sceneInfo := some info }
    match rImage with
    | .error _ => s1
    | .ok data => { s1 with imageData := some data }

/-- The `handlePrevScene` function; identical in structure to
`handleNextScene` with the `prevScene` backend call. -/
def handlePrevScene (rInfo : Except String SceneInfo) (rImage : Except String ImageData)
    (s : ContentState) : ContentState :=
  match rInfo with
  | .error _ => s
  | .ok info =>
    let s1 := { s with sceneInfo := some info }
    match rImage with
    | .error _ => s1
    | .ok data => { s1 with imageData := some data }

/-- Concrete image payloads and content states used in the witnesses and the
counterexample for the error-handling claims. -/
def c8Img0 : ImageData :=
  { main_image := some "a.png", thumbnail_image := none, page_index := 0
    scene_index := 0, image_path := "scenes/a.png", is_preview := false }

/-- Second concrete image payload, distinct from `c8Img0`. -/
def c8Img1 : ImageData :=
  { main_image := some "b.png", thumbnail_image := none, page_index := 1
    scene_index := 0, image_path := "scenes/b.png", is_preview := false }

/-- Concrete content state holding `c8Img0`, not navigating. -/
def c8S : ContentState :=
  { imageData := some c8Img0, sceneInfo := none, loading := false
    error := none, sceneLoopEnabled := false, isNavigating := false }

/-- Concrete content state with the `isNavigating` guard set. -/
def c10S : ContentState :=
  { imageData := some c8Img0, sceneInfo := none, loading := false
    error := none, sceneLoopEnabled := false, isNavigating := true }

/-- Concrete auto-play state used in witnesses: playing forward at speed 1,
never paused. -/
def apS : AutoPlayState :=
  { isPlaying := true, speed := 1, reverse := false, pausedUntil := 0 }

/-- Concrete scene metadata used in witnesses. -/
def sceneInfo0 : SceneInfo :=
  { scene_name := "Scene A", scene_index := 0, total_pages := 10, current_page := 0 }

lemma fresh0_mono {s : DLState} {τ t : Nat} (hτ : τ ≤ t) (h : fresh0 s t) :
    fresh0 s τ :=
  ⟨h.1, Nat.lt_of_le_of_lt hτ h.2⟩

lemma not_fresh0_mono {s : DLState} {τ t : Nat} (hτ : τ ≤ t) (h : ¬ fresh0 s τ) :
    ¬ fresh0 s t :=
  fun hf => h (fresh0_mono hτ hf)

lemma invDL_init (t0 : Nat) (h500 : 500 ≤ t0) : InvDL initState t0 := by
  simp only [InvDL, initState, fresh0]
  refine ⟨by omega, by omega, by omega, ?_, ?_, ?_⟩ <;> intro d hd <;> simp_all

lemma invDL_mouseMove {s : DLState} {τ t : Nat} (h : InvDL s τ) (hτ : τ ≤ t) :
    InvDL (handleMouseMove t s) t := by
  obtain ⟨hts, hlev, hf0, hidl, hl2, hl3⟩ := h
  simp only [fresh0] at hf0 hidl hl2 hl3
  unfold handleMouseMove
  by_cases h0 : s.displayLevel = 0
  · rw [if_pos h0]
    simp only [InvDL, fresh0]
    refine ⟨by omega, by omega, by omega, ?_, ?_, ?_⟩
    · intro di hdi
      simp only [Option.some.injEq] at hdi
      omega
    · intro d2 hd2
      simp only [Option.some.injEq] at hd2
      subst hd2
      refine ⟨trivial, by simp only [Option.some.injEq], by omega, by omega, ?_⟩
      intro di hdi
      simp only [Option.some.injEq] at hdi
      omega
    · intro d3 hd3
      simp only [Option.some.injEq] at hd3
      subst hd3
      refine ⟨by omega, by omega, by omega, ?_, ?_⟩
      · intro di hdi
        simp only [Option.some.injEq] at hdi
        omega
      · left
        exact ⟨trivial, by simp only [Option.some.injEq]; omega⟩
  · rw [if_neg h0]
    simp only [InvDL, fresh0]
    refine ⟨by omega, by omega, by omega, ?_, ?_, ?_⟩
    · intro di hdi
      simp only [Option.some.injEq] at hdi
      omega
    · intro d2 hd2
      obtain ⟨e1, e2, e3, e4, e5⟩ := hl2 d2 hd2
      refine ⟨e1, e2, by omega, by omega, ?_⟩
      intro di hdi
      simp only [Option.some.injEq] at hdi
      omega
    · intro d3 hd3
      obtain ⟨e1, e2, e3, e4, e5⟩ := hl3 d3 hd3
      refine ⟨by omega, by omega, e3, ?_, e5⟩
      intro di hdi
      simp only [Option.some.injEq] at hdi
      omega

lemma invDL_mouseDown {s : DLState} {τ t : Nat} (h : InvDL s τ) (hτ : τ ≤ t) :
    InvDL (handleMouseDown t s) t := by
  obtain ⟨hts, hlev, hf0, hidl, hl2, hl3⟩ := h
  simp only [fresh0] at hf0 hidl hl2 hl3
  unfold handleMouseDown
  by_cases h0 : s.displayLevel = 0
  · rw [if_pos h0]
    simp only [InvDL, fresh0]
    refine ⟨le_refl t, by omega, by omega, ?_, ?_, ?_⟩
    · intro di hdi
      simp only [Option.some.injEq] at hdi
      omega
    · intro d2 hd2
      exact absurd hd2 (by simp)
    · intro d3 hd3
      exact absurd hd3 (by simp)
  · rw [if_neg h0]
    simp only [InvDL, fresh0]
    refine ⟨le_refl t, by omega, by omega, ?_, ?_, ?_⟩
    · intro di hdi
      simp only [Option.some.injEq] at hdi
      omega
    · intro d2 hd2
      obtain ⟨e1, e2, e3, e4, e5⟩ := hl2 d2 hd2
      refine ⟨e1, e2, by omega, by omega, ?_⟩
      intro di hdi
      simp only [Option.some.injEq] at hdi
      omega
    · intro d3 hd3
      obtain ⟨e1, e2, e3, e4, e5⟩ := hl3 d3 hd3
      refine ⟨by omega, by omega, e3, ?_, e5⟩
      intro di hdi
      simp only [Option.some.injEq] at hdi
      omega

lemma optLE_some {t d : Nat} (h : optLE t (some d)) : t ≤ d := h

lemma invDL_untouched {s : DLState} {τ t : Nat} (h : InvDL s τ) (hτ : τ ≤ t) (n : Int) :
    InvDL { s with previousSceneIndex := some n } t := by
  obtain ⟨hts, hlev, hf0, hidl, hl2, hl3⟩ := h
  simp only [fresh0] at hf0 hidl hl2 hl3
  simp only [InvDL, fresh0]
  refine ⟨by omega, hlev, by omega, ?_, ?_, ?_⟩
  · intro di hdi
    have h6 := hidl di hdi
    omega
  · intro d2 hd2
    obtain ⟨e1, e2, e3, e4, e5⟩ := hl2 d2 hd2
    exact ⟨e1, e2, by omega, by omega, e5⟩
  · intro d3 hd3
    obtain ⟨e1, e2, e3, e4, e5⟩ := hl3 d3 hd3
    exact ⟨by omega, by omega, e3, e4, e5⟩

lemma invDL_sceneSet1 {s : DLState} {τ t : Nat} (n : Int) (h : InvDL s τ) (hτ : τ ≤ t)
    (hor : (s.lastMouseDownLevel.level = 0 ∧ t - s.lastMouseDownLevel.timestamp < 500) ∨
           s.displayLevel = 0) :
    InvDL { s with displayLevel := 1
                   mouseIdleTimer := some (t + 3000)
                   previousSceneIndex := some n } t := by
  obtain ⟨hts, hlev, hf0, hidl, hl2, hl3⟩ := h
  simp only [fresh0] at hf0 hidl hl2 hl3
  simp only [InvDL, fresh0]
  refine ⟨by omega, by omega, by omega, ?_, ?_, ?_⟩
  · intro di hdi
    simp only [Option.some.injEq] at hdi
    omega
  · intro d2 hd2
    obtain ⟨e1, e2, e3, e4, e5⟩ := hl2 d2 hd2
    exfalso
    rcases hor with ⟨a, b⟩ | a <;> omega
  · intro d3 hd3
    obtain ⟨e1, e2, e3, e4, e5⟩ := hl3 d3 hd3
    exfalso
    rcases e5 with ⟨q1, q2⟩ | ⟨q1, q2⟩ <;> rcases hor with ⟨a, b⟩ | a <;> omega

lemma invDL_sceneChange {s : DLState} {τ t : Nat} (n : Int) (h : InvDL s τ) (hτ : τ ≤ t) :
    InvDL (handleSceneChange t n s) t := by
  obtain ⟨lv, prev, ⟨ml, mt⟩, ti, t2, t3⟩ := s
  rcases prev with _ | prev
  · exact invDL_untouched h hτ n
  · by_cases hpn : prev = n
    · simp only [handleSceneChange]
      rw [if_pos hpn]
      exact invDL_untouched h hτ n
    · simp only [handleSceneChange]
      rw [if_neg hpn]
      by_cases hin : t - mt < 500
      · rw [if_pos hin]
        by_cases hm : ml = 0
        · rw [if_pos hm]
          exact invDL_sceneSet1 n h hτ (Or.inl ⟨hm, hin⟩)
        · rw [if_neg hm]
          exact invDL_untouched h hτ n
      · rw [if_neg hin]
        by_cases hl : lv = 0
        · rw [if_pos hl]
          exact invDL_sceneSet1 n h hτ (Or.inr hl)
        · rw [if_neg hl]
          exact invDL_untouched h hτ n

lemma invDL_idle {s : DLState} {τ t : Nat} (h : InvDL s τ) (hτ : τ ≤ t)
    (he : enabledDL t DLEvent.idleFired s) : InvDL (fireIdle s) t := by
  obtain ⟨hts, hlev, hf0, hidl, hl2, hl3⟩ := h
  obtain ⟨⟨hi, h2, h3⟩, hit⟩ := he
  have h5 := hidl t hit
  simp only [fresh0] at hf0 h5
  simp only [InvDL, fireIdle, fresh0]
  refine ⟨by omega, by omega, by omega, ?_, ?_, ?_⟩
  · intro di hdi
    exact absurd hdi (by simp)
  · intro d2 hd2
    obtain ⟨e1, e2, e3, e4, e5⟩ := hl2 d2 hd2
    have h6 := e5 t hit
    have h7 : t ≤ d2 := by rw [hd2] at h2; exact optLE_some h2
    omega
  · intro d3 hd3
    obtain ⟨e1, e2, e3, e4, e5⟩ := hl3 d3 hd3
    have h6 := e4 t hit
    have h7 : t ≤ d3 := by rw [hd3] at h3; exact optLE_some h3
    omega

lemma invDL_level2 {s : DLState} {τ t : Nat} (h : InvDL s τ) (hτ : τ ≤ t)
    (he : enabledDL t DLEvent.level2Fired s) : InvDL (fireLevel2 s) t := by
  obtain ⟨hts, hlev, hf0, hidl, hl2, hl3⟩ := h
  obtain ⟨⟨hi, h2, h3⟩, hl2t⟩ := he
  obtain ⟨e1, e2, e3, e4, e5⟩ := hl2 t hl2t
  simp only [fresh0] at hf0 hidl e3
  simp only [InvDL, fireLevel2, fresh0]
  refine ⟨by omega, by omega, by omega, ?_, ?_, ?_⟩
  · intro di hdi
    have h6 := hidl di hdi
    omega
  · intro d2 hd2
    exact absurd hd2 (by simp)
  · intro d3 hd3
    rw [e2] at hd3
    simp only [Option.some.injEq] at hd3
    subst hd3
    refine ⟨by omega, by omega, by omega, ?_, Or.inr (by simp)⟩
    intro di hdi
    have h6 := e5 di hdi
    omega

lemma invDL_level3 {s : DLState} {τ t : Nat} (h : InvDL s τ) (hτ : τ ≤ t)
    (he : enabledDL t DLEvent.level3Fired s) : InvDL (fireLevel3 s) t := by
  obtain ⟨hts, hlev, hf0, hidl, hl2, hl3⟩ := h
  obtain ⟨⟨hi, h2, h3⟩, hl3t⟩ := he
  obtain ⟨e1, e2, e3, e4, e5⟩ := hl3 t hl3t
  have hL2none : s.level2Timer = none := by
    rcases e5 with ⟨q1, q2⟩ | ⟨q1, q2⟩
    · exfalso
      rw [q2] at h2
      have h7 := optLE_some h2
      omega
    · exact q2
  simp only [fresh0] at hf0 hidl e1
  simp only [InvDL, fireLevel3, fresh0]
  refine ⟨by omega, by omega, by omega, ?_, ?_, ?_⟩
  · intro di hdi
    have h6 := hidl di hdi
    omega
  · intro d2 hd2
    rw [hL2none] at hd2
    exact absurd hd2 (by simp)
  · intro d3 hd3
    exact absurd hd3 (by simp)

lemma invDL_step {s : DLState} {τ t : Nat} {e : DLEvent} (h : InvDL s τ) (hτ : τ ≤ t)
    (he : enabledDL t e s) : InvDL (stepDL t e s) t := by
  cases e with
  | mouseMove => exact invDL_mouseMove h hτ
  | mouseDown => exact invDL_mouseDown h hτ
  | sceneChange n => exact invDL_sceneChange n h hτ
  | idleFired => exact invDL_idle h hτ he
  | level2Fired => exact invDL_level2 h hτ he
  | level3Fired => exact invDL_level3 h hτ he

lemma invDL_reach {t0 : Nat} (h500 : 500 ≤ t0) {s : DLState} {τ : Nat}
    (hr : ReachDL t0 s τ) : InvDL s τ := by
  induction hr with
  | init => exact invDL_init t0 h500
  | next hr hle hen ih => exact invDL_step ih hle hen

lemma handleMouseMove_level0 (t : Nat) {s : DLState} (h : s.displayLevel = 0) :
    (handleMouseMove t s).displayLevel = 1 := by
  unfold handleMouseMove
  rw [if_pos h]

lemma handleMouseMove_levelPos (t : Nat) {s : DLState} (h : ¬ s.displayLevel = 0) :
    (handleMouseMove t s).displayLevel = s.displayLevel := by
  unfold handleMouseMove
  rw [if_neg h]

lemma handleMouseDown_level0 (t : Nat) {s : DLState} (h : s.displayLevel = 0) :
    (handleMouseDown t s).displayLevel = 3 := by
  unfold handleMouseDown
  rw [if_pos h]

lemma handleMouseDown_levelPos (t : Nat) {s : DLState} (h : ¬ s.displayLevel = 0) :
    (handleMouseDown t s).displayLevel = s.displayLevel := by
  unfold handleMouseDown
  rw [if_neg h]

lemma sceneChange_level_cases (t : Nat) (n : Int) (s : DLState) :
    (handleSceneChange t n s).displayLevel = s.displayLevel ∨
    ((handleSceneChange t n s).displayLevel = 1 ∧
      ((t - s.lastMouseDownLevel.timestamp < 500 ∧ s.lastMouseDownLevel.level = 0) ∨
        s.displayLevel = 0)) := by
  obtain ⟨lv, prev, ⟨ml, mt⟩, ti, t2, t3⟩ := s
  rcases prev with _ | prev
  · left; rfl
  · by_cases hpn : prev = n
    · left
      simp only [handleSceneChange]
      rw [if_pos hpn]
    · simp only [handleSceneChange]
      rw [if_neg hpn]
      by_cases hin : t - mt < 500
      · rw [if_pos hin]
        by_cases hm : ml = 0
        · rw [if_pos hm]
          exact Or.inr ⟨rfl, Or.inl ⟨hin, hm⟩⟩
        · rw [if_neg hm]
          left; rfl
      · rw [if_neg hin]
        by_cases hl : lv = 0
        · rw [if_pos hl]
          exact Or.inr ⟨rfl, Or.inr hl⟩
        · rw [if_neg hl]
          left; rfl

/-- Claim C1: on `contentIdentityChanged(newId)` with a previous id tracked
and `newId` different from it, the reference level is the mouse-down snapshot
level when the event is less than 500 ms after the last pointer-down and the
current level otherwise; reference level 0 sets the level to 1 and reschedules
the idle deadline to 3000 ms, any other reference level changes nothing; the
previous id is always updated.  In particular a scene change less than 500 ms
after a pointer-down that happened at level 0 sets the level to 1 even though
the current level is 3 from the click jump. -/
theorem C1_sceneChange (t : Nat) (n p : Int) (s : DLState)
    (hprev : s.previousSceneIndex = some p) (hne : p ≠ n) :
    (((if t - s.lastMouseDownLevel.timestamp < 500 then s.lastMouseDownLevel.level
        else s.displayLevel) = 0 →
        (handleSceneChange t n s).displayLevel = 1 ∧
        (handleSceneChange t n s).mouseIdleTimer = some (t + 3000)) ∧
      ((if t - s.lastMouseDownLevel.timestamp < 500 then s.lastMouseDownLevel.level
        else s.displayLevel) ≠ 0 →
        (handleSceneChange t n s).displayLevel = s.displayLevel ∧
        (handleSceneChange t n s).mouseIdleTimer = s.mouseIdleTimer) ∧
      (handleSceneChange t n s).previousSceneIndex = some n) ∧
    (∀ td, s.displayLevel = 0 → td ≤ t → t < td + 500 →
      (handleMouseDown td s).displayLevel = 3 ∧
      (handleSceneChange t n (handleMouseDown td s)).displayLevel = 1) := by
  obtain ⟨lv, prev, ⟨ml, mt⟩, ti, t2, t3⟩ := s
  replace hprev : prev = some p := hprev
  subst hprev
  constructor
  · simp only [handleSceneChange]
    rw [if_neg hne]
    by_cases hin : t - mt < 500
    · rw [if_pos hin]
      by_cases hm : ml = 0
      · rw [if_pos hm]
        exact ⟨fun _ => ⟨rfl, rfl⟩, fun hmm => absurd hm hmm, rfl⟩
      · rw [if_neg hm]
        exact ⟨fun hmm => absurd hmm hm, fun _ => ⟨rfl, rfl⟩, rfl⟩
    · rw [if_neg hin]
      by_cases hl : lv = 0
      · rw [if_pos hl]
        exact ⟨fun _ => ⟨rfl, rfl⟩, fun hmm => absurd hl hmm, rfl⟩
      · rw [if_neg hl]
        exact ⟨fun hmm => absurd hmm hl, fun _ => ⟨rfl, rfl⟩, rfl⟩
  · intro td h0 hle hlt
    replace h0 : lv = 0 := h0
    subst h0
    have hin2 : t - td < 500 := by omega
    refine ⟨rfl, ?_⟩
    simp only [handleMouseDown, handleSceneChange, eq_self_iff_true, if_true]
    rw [if_neg hne, if_pos hin2]
    simp

/-- Witness for C1 at a concrete input: state at level 0 with previous scene
index 0; a pointer-down at 1800 jumps to level 3 and the scene change at 2000
(within 500 ms) brings the level back down to 1 and updates the tracked id. -/
theorem C1_witness :
    (handleSceneChange 2000 1 c1S).previousSceneIndex = some 1 ∧
    (handleMouseDown 1800 c1S).displayLevel = 3 ∧
    (handleSceneChange 2000 1 (handleMouseDown 1800 c1S)).displayLevel = 1 := by
  have h := C1_sceneChange 2000 1 0 c1S rfl (by decide)
  exact ⟨h.1.2.2, (h.2 1800 rfl (by omega) (by omega)).1,
    (h.2 1800 rfl (by omega) (by omega)).2⟩

/-- Claim C2: on `pointerMove` the idle deadline is always rescheduled to
reset the level to 0 after 3000 ms; when the level is 0 the level becomes 1
immediately and fresh deadlines are scheduled that set the level to 2 after
200 ms and to 3 after 500 ms (replacing, hence cancelling, any pending ones);
when the level is 1 or greater the level and the progression deadlines are
untouched. -/
theorem C2_pointerMove (t : Nat) (s : DLState) :
    (handleMouseMove t s).mouseIdleTimer = some (t + 3000) ∧
    (fireIdle (handleMouseMove t s)).displayLevel = 0 ∧
    (s.displayLevel = 0 →
      (handleMouseMove t s).displayLevel = 1 ∧
      (handleMouseMove t s).level2Timer = some (t + 200) ∧
      (handleMouseMove t s).level3Timer = some (t + 500) ∧
      (fireLevel2 (handleMouseMove t s)).displayLevel = 2 ∧
      (fireLevel3 (handleMouseMove t s)).displayLevel = 3) ∧
    (s.displayLevel ≠ 0 →
      (handleMouseMove t s).displayLevel = s.displayLevel ∧
      (handleMouseMove t s).level2Timer = s.level2Timer ∧
      (handleMouseMove t s).level3Timer = s.level3Timer) := by
  unfold handleMouseMove
  by_cases h0 : s.displayLevel = 0
  · rw [if_pos h0]
    exact ⟨rfl, rfl, fun _ => ⟨rfl, rfl, rfl, rfl, rfl⟩, fun hn => absurd h0 hn⟩
  · rw [if_neg h0]
    exact ⟨rfl, rfl, fun hz => absurd hz h0, fun _ => ⟨rfl, rfl, rfl⟩⟩

/-- Witness for C2 at concrete inputs: a move at level 0 reschedules the idle
deadline and shows level 1; a move at level 3 leaves the level at 3. -/
theorem C2_witness :
    (handleMouseMove 1000 initState).mouseIdleTimer = some 4000 ∧
    (handleMouseMove 1000 initState).displayLevel = 1 ∧
    (handleMouseMove 6000 level3S).displayLevel = 3 := by
  have h1 := C2_pointerMove 1000 initState
  have h2 := C2_pointerMove 6000 level3S
  exact ⟨h1.1, (h1.2.2.1 rfl).1, ((h2.2.2.2 (by decide)).1).trans rfl⟩

/-- Claim C3: on `pointerDown` a snapshot of the pre-event level and the
timestamp is recorded; the idle deadline is rescheduled to reset the level to
0 after 3000 ms; when the level is 0 the progression deadlines are cancelled
(so they can never fire later) and the level jumps to 3; when the level is 1
or greater the level and the progression deadlines are untouched. -/
theorem C3_pointerDown (t : Nat) (s : DLState) :
    (handleMouseDown t s).lastMouseDownLevel =
      { level := s.displayLevel, timestamp := t } ∧
    (handleMouseDown t s).mouseIdleTimer = some (t + 3000) ∧
    (fireIdle (handleMouseDown t s)).displayLevel = 0 ∧
    (s.displayLevel = 0 →
      (handleMouseDown t s).displayLevel = 3 ∧
      (handleMouseDown t s).level2Timer = none ∧
      (handleMouseDown t s).level3Timer = none ∧
      (∀ u, ¬ enabledDL u DLEvent.level2Fired (handleMouseDown t s)) ∧
      (∀ u, ¬ enabledDL u DLEvent.level3Fired (handleMouseDown t s))) ∧
    (s.displayLevel ≠ 0 →
      (handleMouseDown t s).displayLevel = s.displayLevel ∧
      (handleMouseDown t s).level2Timer = s.level2Timer ∧
      (handleMouseDown t s).level3Timer = s.level3Timer) := by
  unfold handleMouseDown
  by_cases h0 : s.displayLevel = 0
  · rw [if_pos h0]
    refine ⟨rfl, rfl, rfl, fun _ => ⟨rfl, rfl, rfl, ?_, ?_⟩, fun hn => absurd h0 hn⟩
    · intro u hu
      exact absurd hu.2 (by simp)
    · intro u hu
      exact absurd hu.2 (by simp)
  · rw [if_neg h0]
    exact ⟨rfl, rfl, rfl, fun hz => absurd hz h0, fun _ => ⟨rfl, rfl, rfl⟩⟩

/-- Witness for C3 at concrete inputs: a pointer-down at level 0 jumps to
level 3 and records the snapshot; a pointer-down at level 3 keeps level 3. -/
theorem C3_witness :
    (handleMouseDown 1000 initState).displayLevel = 3 ∧
    (handleMouseDown 1000 initState).lastMouseDownLevel =
      { level := 0, timestamp := 1000 } ∧
    (handleMouseDown 6000 level3S).displayLevel = 3 := by
  have h1 := C3_pointerDown 1000 initState
  have h2 := C3_pointerDown 6000 level3S
  exact ⟨(h1.2.2.2.1 rfl).1, h1.1, ((h2.2.2.2.2 (by decide)).1).trans rfl⟩

/-- Counterexample to claim C4 as stated: in the reachable trace
mount(1000) → sceneChange 0 → pointerDown at 1100 (level 0 → 3) →
sceneChange 1 at 1200, the last step lowers the level from 3 to 1, yet it is
not the idle timeout. -/
theorem C4_counterexample : ¬ C4ClaimedProp := by
  intro h
  have r0 : ReachDL 1000 initState 1000 := ReachDL.init
  have e1 : enabledDL 1000 (DLEvent.sceneChange 0) initState := by decide
  have r1 : ReachDL 1000 c4s1 1000 := ReachDL.next r0 (le_refl 1000) e1
  have e2 : enabledDL 1100 DLEvent.mouseDown c4s1 := by decide
  have r2 : ReachDL 1000 c4s2 1100 := ReachDL.next r1 (by omega) e2
  have e3 : enabledDL 1200 (DLEvent.sceneChange 1) c4s2 := by decide
  have hlt : (stepDL 1200 (DLEvent.sceneChange 1) c4s2).displayLevel <
      c4s2.displayLevel := by decide
  have hc := h 1000 c4s2 1100 1200 (DLEvent.sceneChange 1) (by omega) r2 (by omega) e3 hlt
  exact absurd hc (by decide)

/-- Claim C4 (amended): in every reachable execution the level moves only
along 0→1 (pointer move or scene change), 1→2 (level-2 deadline), 2→3
(level-3 deadline) or the pointer-down jump 0→3, so no intermediate level is
skipped except that jump; and the only transitions that lower the level are
the idle-timeout reset to 0 and the scene-change rule, which lowers the level
to 1 when the last pointer-down was taken at level 0 less than 500 ms
earlier. -/
theorem C4_level_transitions (t0 : Nat) (s : DLState) (τ t : Nat) (e : DLEvent)
    (h500 : 500 ≤ t0) (hr : ReachDL t0 s τ) (hτ : τ ≤ t) (he : enabledDL t e s) :
    ((stepDL t e s).displayLevel < s.displayLevel →
      (e = DLEvent.idleFired ∧ (stepDL t e s).displayLevel = 0) ∨
      (∃ n, e = DLEvent.sceneChange n ∧ (stepDL t e s).displayLevel = 1 ∧
        s.lastMouseDownLevel.level = 0 ∧ t < s.lastMouseDownLevel.timestamp + 500)) ∧
    (s.displayLevel < (stepDL t e s).displayLevel →
      (s.displayLevel = 0 ∧ (stepDL t e s).displayLevel = 1) ∨
      (s.displayLevel = 1 ∧ (stepDL t e s).displayLevel = 2 ∧ e = DLEvent.level2Fired) ∨
      (s.displayLevel = 2 ∧ (stepDL t e s).displayLevel = 3 ∧ e = DLEvent.level3Fired) ∨
      (s.displayLevel = 0 ∧ (stepDL t e s).displayLevel = 3 ∧ e = DLEvent.mouseDown)) := by
  have hinv := invDL_reach h500 hr
  obtain ⟨hts, hlev, hf0, hidl, hl2, hl3⟩ := hinv
  cases e with
  | mouseMove =>
    simp only [stepDL]
    by_cases h0 : s.displayLevel = 0
    · rw [handleMouseMove_level0 t h0]
      exact ⟨fun hlt => absurd hlt (by omega), fun _ => Or.inl ⟨h0, rfl⟩⟩
    · rw [handleMouseMove_levelPos t h0]
      exact ⟨fun hlt => absurd hlt (by omega), fun hlt => absurd hlt (by omega)⟩
  | mouseDown =>
    simp only [stepDL]
    by_cases h0 : s.displayLevel = 0
    · rw [handleMouseDown_level0 t h0]
      exact ⟨fun hlt => absurd hlt (by omega),
        fun _ => Or.inr (Or.inr (Or.inr ⟨h0, rfl, by trivial⟩))⟩
    · rw [handleMouseDown_levelPos t h0]
      exact ⟨fun hlt => absurd hlt (by omega), fun hlt => absurd hlt (by omega)⟩
  | sceneChange n =>
    simp only [stepDL]
    rcases sceneChange_level_cases t n s with hl | ⟨hl, hcond⟩
    · rw [hl]
      exact ⟨fun hlt => absurd hlt (by omega), fun hlt => absurd hlt (by omega)⟩
    · rw [hl]
      constructor
      · intro hlt
        refine Or.inr ⟨n, by trivial, rfl, ?_, ?_⟩
        · rcases hcond with ⟨hw, hm⟩ | hz <;> omega
        · rcases hcond with ⟨hw, hm⟩ | hz <;> omega
      · intro hlt
        exact Or.inl ⟨by omega, rfl⟩
  | idleFired =>
    simp only [stepDL]
    have hfi : (fireIdle s).displayLevel = 0 := rfl
    rw [hfi]
    exact ⟨fun _ => Or.inl ⟨by trivial, rfl⟩, fun hlt => absurd hlt (by omega)⟩
  | level2Fired =>
    obtain ⟨⟨hi, h2, h3⟩, hl2t⟩ := he
    obtain ⟨e1, e2, e3, e4, e5⟩ := hl2 t hl2t
    simp only [stepDL]
    have hfi : (fireLevel2 s).displayLevel = 2 := rfl
    rw [hfi]
    exact ⟨fun hlt => absurd hlt (by omega),
      fun _ => Or.inr (Or.inl ⟨e1, rfl, by trivial⟩)⟩
  | level3Fired =>
    obtain ⟨⟨hi, h2, h3⟩, hl3t⟩ := he
    obtain ⟨e1, e2, e3, e4, e5⟩ := hl3 t hl3t
    have hdl2 : s.displayLevel = 2 := by
      rcases e5 with ⟨q1, q2⟩ | ⟨q1, q2⟩
      · exfalso
        rw [q2] at h2
        have h7 := optLE_some h2
        omega
      · exact q1
    simp only [stepDL]
    have hfi : (fireLevel3 s).displayLevel = 3 := rfl
    rw [hfi]
    exact ⟨fun hlt => absurd hlt (by omega),
      fun _ => Or.inr (Or.inr (Or.inl ⟨hdl2, rfl, by trivial⟩))⟩

/-- Witness for the amended C4 at a concrete input: the first mouse move after
mount raises the level, and the characterisation says it is the 0→1 rise. -/
theorem C4_witness :
    initState.displayLevel < (stepDL 1000 DLEvent.mouseMove initState).displayLevel ∧
    ((initState.displayLevel = 0 ∧
        (stepDL 1000 DLEvent.mouseMove initState).displayLevel = 1) ∨
      (initState.displayLevel = 1 ∧
        (stepDL 1000 DLEvent.mouseMove initState).displayLevel = 2 ∧
        DLEvent.mouseMove = DLEvent.level2Fired) ∨
      (initState.displayLevel = 2 ∧
        (stepDL 1000 DLEvent.mouseMove initState).displayLevel = 3 ∧
        DLEvent.mouseMove = DLEvent.level3Fired) ∨
      (initState.displayLevel = 0 ∧
        (stepDL 1000 DLEvent.mouseMove initState).displayLevel = 3 ∧
        DLEvent.mouseMove = DLEvent.mouseDown)) := by
  have h := C4_level_transitions 1000 initState 1000 1000 DLEvent.mouseMove
    (by omega) ReachDL.init (le_refl 1000) (by decide)
  exact ⟨by decide, h.2 (by decide)⟩

/-- Claim C5: while the auto-play effect is active ticks occur at the
effective interval `2400 / speedMultiplier`; on each tick the backward or
forward callback is invoked according to `reverse` when `now ≥ pausedUntil`,
and skipped (while the timer keeps its cadence) when `now < pausedUntil`;
`pause(d)` sets `pausedUntil = now + d` and suppresses exactly the ticks whose
time falls before `now + d`; no interval timer exists when inactive. -/
theorem C5_autoPlay (now tp d t : ℚ) (speed : ℚ) (s : AutoPlayState)
    (old : Option IntervalTimer) :
    rerunAutoPlayEffect now old false speed = none ∧
    (∀ T, rerunAutoPlayEffect now old true speed = some T →
      T.delay = 2400 / speed ∧
      ∀ k : Nat, tickTime T (k + 1) = tickTime T k + 2400 / speed) ∧
    (s.pausedUntil ≤ now → s.reverse = true →
      tickAction now s = some NavDirection.backward) ∧
    (s.pausedUntil ≤ now → s.reverse = false →
      tickAction now s = some NavDirection.forward) ∧
    (now < s.pausedUntil → tickAction now s = none) ∧
    (applyPause tp d s).pausedUntil = tp + d ∧
    (tickAction t (applyPause tp d s) = none ↔ t < tp + d) := by
  refine ⟨rfl, ?_, ?_, ?_, ?_, rfl, ?_⟩
  · intro T hT
    simp only [rerunAutoPlayEffect, eq_self_iff_true, if_true, Option.some.injEq] at hT
    subst hT
    refine ⟨rfl, ?_⟩
    intro k
    simp only [tickTime, baseInterval]
    push_cast
    ring
  · intro h1 h2
    simp [tickAction, show ¬ (now < s.pausedUntil) from not_lt.mpr h1, h2]
  · intro h1 h2
    simp [tickAction, show ¬ (now < s.pausedUntil) from not_lt.mpr h1, h2]
  · intro h1
    simp [tickAction, h1]
  · unfold tickAction applyPause
    by_cases hc : t < tp + d
    · simp [hc]
    · cases hr : s.reverse <;> simp [hc, hr]

/-- Witness for C5 at concrete inputs: a tick at 2400 with no pause invokes
the forward callback; after `pause(1000)` at 5000 the tick at 5500 is
suppressed; no timer runs while inactive. -/
theorem C5_witness :
    tickAction 2400 apS = some NavDirection.forward ∧
    tickAction 5500 (applyPause 5000 1000 apS) = none ∧
    rerunAutoPlayEffect 0 none false 1 = none := by
  have h := C5_autoPlay 2400 5000 1000 5500 1 apS none
  exact ⟨h.2.2.2.1 (by norm_num [apS]) rfl, (h.2.2.2.2.2.2).mpr (by norm_num), h.1⟩

/-- Claim C6: a re-run of the interval effect caused by `setSpeed(m)` while
active discards the old interval timer and starts a fresh one at period
`2400 / m` immediately, so the next tick comes `2400 / m` after the change,
with tick times anchored at the change time (no drift and no waiting out the
old interval, whatever the previous timer was). -/
theorem C6_setSpeed (tc m : ℚ) (oldT : Option IntervalTimer) :
    ∃ T, rerunAutoPlayEffect tc oldT true m = some T ∧
      T.start = tc ∧ T.delay = 2400 / m ∧
      tickTime T 0 = tc + 2400 / m ∧
      (∀ k : Nat, tickTime T k = tc + (k + 1) * (2400 / m)) ∧
      (∀ oldT2, rerunAutoPlayEffect tc oldT2 true m = some T) := by
  refine ⟨{ start := tc, delay := baseInterval / m }, rfl, rfl, ?_, ?_, ?_, ?_⟩
  · simp [baseInterval]
  · norm_num [tickTime, baseInterval]
  · intro k
    simp [tickTime, baseInterval]
  · intro oldT2
    rfl

/-- Claim C7 evaluated at the failing input: the display-level cleanup does
cancel its three timers and remove both listeners, and the auto-play cleanup
clears the interval; but `useNotification` registers no cleanup, so a
notification shown at 1000 with duration 2000 leaves its expiry timeout
(deadline 3000) pending across unmount. -/
theorem C7_teardown_eval :
    (displayLevelCleanup level3S { mousemove := true, mousedown := true }).1.mouseIdleTimer
      = none ∧
    (displayLevelCleanup level3S { mousemove := true, mousedown := true }).1.level2Timer
      = none ∧
    (displayLevelCleanup level3S { mousemove := true, mousedown := true }).1.level3Timer
      = none ∧
    (displayLevelCleanup level3S { mousemove := true, mousedown := true }).2.mousemove
      = false ∧
    (displayLevelCleanup level3S { mousemove := true, mousedown := true }).2.mousedown
      = false ∧
    autoPlayCleanup (some { start := 1000, delay := 2400 }) = none ∧
    (notificationUnmountCleanup
      (showNotification 1000 "Auto-play ON" 2000 initNotification)).pendingTimers
      = [3000] :=
  ⟨rfl, rfl, rfl, rfl, rfl, rfl, rfl⟩

/-- Counterexample to claim C8 as stated: when the page-navigation backend
call succeeds but the follow-up `getSceneInfo` rejects, the handler has
already replaced `imageData`, so a navigation failure does not leave the UI
state unchanged. -/
theorem C8_counterexample :
    (handleNextPage (Except.ok c8Img1) (Except.error "boom") c8S).1.imageData ≠
      c8S.imageData := by
  decide

/-- Eta-expansion helper: clearing an already-clear navigation guard is the
identity. -/
lemma contentState_eta {s : ContentState} (h : s.isNavigating = false) :
    { s with isNavigating := false } = s := by
  obtain ⟨a, b, c, d, e, f⟩ := s
  replace h : f = false := h
  subst h
  rfl

/-- Claim C8 (amended): every asynchronous Content-Controller failure is
caught at the call site.  A failure anywhere in the initial load sets the
visible error message and ends the loading state; a navigation handler whose
first backend call rejects leaves the whole UI state unchanged with no
visible error; when a later call inside a navigation handler rejects, the
update already applied from the earlier successful call is kept, while
`loading` and `error` stay unchanged and no error is shown. -/
theorem C8_error_handling (e : String) (rInfo : Except String SceneInfo)
    (rImage : Except String ImageData) (info : SceneInfo) (data : ImageData)
    (s : ContentState) (hnav : s.isNavigating = false) :
    ((loadInitialScene (Except.error e) rInfo rImage s).error =
        some ("Failed to load scene: " ++ e) ∧
      (loadInitialScene (Except.error e) rInfo rImage s).loading = false) ∧
    ((loadInitialScene (Except.ok ()) (Except.error e) rImage s).error =
        some ("Failed to load scene: " ++ e) ∧
      (loadInitialScene (Except.ok ()) (Except.error e) rImage s).loading = false) ∧
    ((loadInitialScene (Except.ok ()) (Except.ok info) (Except.error e) s).error =
        some ("Failed to load scene: " ++ e) ∧
      (loadInitialScene (Except.ok ()) (Except.ok info) (Except.error e) s).loading = false) ∧
    ((loadInitialScene (Except.ok ()) (Except.ok info) (Except.ok data) s).error = none ∧
      (loadInitialScene (Except.ok ()) (Except.ok info) (Except.ok data) s).loading = false ∧
      (loadInitialScene (Except.ok ()) (Except.ok info) (Except.ok data) s).imageData =
        some data ∧
      (loadInitialScene (Except.ok ()) (Except.ok info) (Except.ok data) s).sceneInfo =
        some info) ∧
    ((handleNextPage (Except.error e) rInfo s).1 = s ∧
      (handlePrevPage (Except.error e) rInfo s).1 = s) ∧
    ((handleNextPage (Except.ok data) (Except.error e) s).1.imageData = some data ∧
      (handleNextPage (Except.ok data) (Except.error e) s).1.sceneInfo = s.sceneInfo ∧
      (handleNextPage (Except.ok data) (Except.error e) s).1.error = s.error ∧
      (handleNextPage (Except.ok data) (Except.error e) s).1.loading = s.loading) ∧
    (handleNextScene (Except.error e) rImage s = s ∧
      handlePrevScene (Except.error e) rImage s = s) ∧
    ((handleNextScene (Except.ok info) (Except.error e) s).sceneInfo = some info ∧
      (handleNextScene (Except.ok info) (Except.error e) s).imageData = s.imageData ∧
      (handleNextScene (Except.ok info) (Except.error e) s).error = s.error ∧
      (handleNextScene (Except.ok info) (Except.error e) s).loading = s.loading) := by
  have hguard : ¬ (s.isNavigating = true) := by simp [hnav]
  refine ⟨⟨rfl, rfl⟩, ⟨rfl, rfl⟩, ⟨rfl, rfl⟩, ⟨rfl, rfl, rfl, rfl⟩, ⟨?_, ?_⟩,
    ⟨?_, ?_, ?_, ?_⟩, ⟨rfl, rfl⟩, ⟨rfl, rfl, rfl, rfl⟩⟩
  · unfold handleNextPage
    rw [if_neg hguard]
    exact contentState_eta hnav
  · unfold handlePrevPage
    rw [if_neg hguard]
    exact contentState_eta hnav
  · unfold handleNextPage
    rw [if_neg hguard]
  · unfold handleNextPage
    rw [if_neg hguard]
  · unfold handleNextPage
    rw [if_neg hguard]
  · unfold handleNextPage
    rw [if_neg hguard]

/-- Witness for the amended C8 at concrete inputs: a rejected first call
leaves the state untouched, and a rejected initial load sets the visible
error and ends loading. -/
theorem C8_witness :
    (handleNextPage (Except.error "boom") (Except.ok sceneInfo0) c8S).1 = c8S ∧
    (loadInitialScene (Except.error "boom") (Except.ok sceneInfo0)
      (Except.ok c8Img0) c8S).error = some "Failed to load scene: boom" ∧
    (loadInitialScene (Except.error "boom") (Except.ok sceneInfo0)
      (Except.ok c8Img0) c8S).loading = false := by
  have h := C8_error_handling "boom" (Except.ok sceneInfo0) (Except.ok c8Img0)
    sceneInfo0 c8Img0 c8S rfl
  exact ⟨h.2.2.2.2.1.1, h.1.1, h.1.2⟩

/-- Claim C9: `showNotification(message, duration)` cancels the pending
expiry timeout of any prior notification, replaces the displayed text with
the new message, and schedules auto-dismissal after `duration`; at most one
expiry timeout is ever live, and firing it dismisses the message. -/
theorem C9_showNotification (now dur : Nat) (msg : String) (s : NotificationState)
    (hwf : NotifWF s) :
    (showNotification now msg dur s).notification = some msg ∧
    (showNotification now msg dur s).pendingTimers = [now + dur] ∧
    (showNotification now msg dur s).notificationTimer = some (now + dur) ∧
    NotifWF (showNotification now msg dur s) ∧
    (fireNotificationExpiry (now + dur)
      (showNotification now msg dur s)).notification = none ∧
    (fireNotificationExpiry (now + dur)
      (showNotification now msg dur s)).pendingTimers = [] := by
  have hp : (showNotification now msg dur s).pendingTimers = [now + dur] := by
    rcases hwf with hnil | ⟨dl, htimer, hlist⟩
    · cases htm : s.notificationTimer <;>
        simp [showNotification, htm, hnil]
    · simp [showNotification, htimer, hlist]
  refine ⟨rfl, hp, rfl, Or.inr ⟨now + dur, rfl, hp⟩, rfl, ?_⟩
  show ((showNotification now msg dur s).pendingTimers).erase (now + dur) = []
  rw [hp]
  simp

/-- Witness for C9 at a concrete input: showing a message at 1000 for 2000 ms
displays it, schedules exactly one expiry at 3000, and the expiry dismisses
it. -/
theorem C9_witness :
    (showNotification 1000 "Loop ON" 2000 initNotification).notification =
      some "Loop ON" ∧
    (showNotification 1000 "Loop ON" 2000 initNotification).pendingTimers = [3000] ∧
    (fireNotificationExpiry 3000
      (showNotification 1000 "Loop ON" 2000 initNotification)).notification = none := by
  have h := C9_showNotification 1000 2000 "Loop ON" initNotification (Or.inl rfl)
  exact ⟨h.1, h.2.1, h.2.2.2.2.1⟩

/-- Claim C10: a page-navigation handler invoked while the `isNavigating`
guard is set returns immediately: the backend is not invoked and the state
(in particular `imageData` and `sceneInfo`) is unchanged, so concurrent
auto-play ticks and key presses are dropped, not queued. -/
theorem C10_navigation_guard (rData : Except String ImageData)
    (rInfo : Except String SceneInfo) (s : ContentState)
    (hbusy : s.isNavigating = true) :
    handleNextPage rData rInfo s = (s, false) ∧
    handlePrevPage rData rInfo s = (s, false) := by
  constructor
  · unfold handleNextPage
    rw [if_pos hbusy]
  · unfold handlePrevPage
    rw [if_pos hbusy]

/-- Witness for C10 at a concrete input: with the guard set, both page
handlers return the state unchanged and report the backend as not invoked. -/
theorem C10_witness :
    handleNextPage (Except.ok c8Img1) (Except.error "boom") c10S = (c10S, false) ∧
    handlePrevPage (Except.ok c8Img1) (Except.error "boom") c10S = (c10S, false) :=
  C10_navigation_guard (Except.ok c8Img1) (Except.error "boom") c10S rfl

end FastViewer
